import Mathlib

/-!
# Verification of the ollama-pod resource-selection and lifecycle engine

Shallow embedding of the core logic of `apps/ollama-pod/src/ollama_pod/`
(`gpu.py`, `pod.py`, `model_info.py`, `cli.py`) and proofs of the spec's
claims about it.

Modelling conventions:
* Python floats (prices, VRAM sizes) are modelled as `ℚ`.
* Python `dict.get` fields that may be missing or `None` are `Option` fields.
* Python truthiness of an optional number (`None` and `0.0` are falsy) is
  the `truthy` filter below; truthiness of an optional string (`None` and
  `""` are falsy) is `strTruthy`.
* Remote calls (`runpod.get_gpus`, `runpod.get_gpu`, `runpod.create_pod`,
  `runpod.get_pod`, `runpod.terminate_pod`, the registry fetch) are passed
  in as explicit data / response functions; a raised exception is an
  `Except.error` value, which the embedded code propagates exactly where
  the Python code would let the exception escape.
* The local state directory `~/.ollama-pod/pods/*.json` is an association
  list from pod name to the stored document.
-/

namespace OllamaPod

/-- Cloud-type preference, `gpu.py`: `CloudType = Literal["any", "community", "secure"]`. -/
inductive CloudType
  | any
  | community
  | secure
deriving DecidableEq

/-- A resolved cloud type: the `"community"` / `"secure"` result strings. -/
inductive Cloud
  | community
  | secure
deriving DecidableEq

/-- Python truthiness of an optional price: `None` and `0.0` are falsy,
every other float is truthy.  `truthy x = some p` exactly when `x` holds a
usable (truthy) price `p`. -/
def truthy : Option ℚ → Option ℚ
  | none => none
  | some p => if p = 0 then none else some p

/-- Python truthiness of an optional string: `None` and `""` are falsy. -/
def strTruthy : Option String → Bool
  | none => false
  | some s => !(s == "")

/-- A GPU detail dict as returned by `runpod.get_gpu` (`gpu.py`).
`uninterruptablePrice` models `(detail.get("lowestPrice", {}) or {}).get("uninterruptablePrice")`:
`none` covers a missing/null `lowestPrice` dict as well as a missing key. -/
structure GpuDetail where
  communityCloud : Bool
  secureCloud : Bool
  communityPrice : Option ℚ
  securePrice : Option ℚ
  uninterruptablePrice : Option ℚ
deriving DecidableEq

/-- Embeds `gpu.py` `_get_price_and_cloud(detail, cloud_type)`: extract
`(price, resolved_cloud_type)` from a GPU detail dict, or `none` if unavailable. -/
def _get_price_and_cloud (detail : GpuDetail) (cloud_type : CloudType) : Option (ℚ × Cloud) :=
  match cloud_type with
  | CloudType.community =>
      if detail.communityCloud then
        match truthy detail.communityPrice with
        | some price => some (price, Cloud.community)
        | none => none
      else none
  | CloudType.secure =>
      if detail.secureCloud then
        match truthy detail.securePrice with
        | some price => some (price, Cloud.secure)
        | none => none
      else none
  | CloudType.any =>
      let price : Option ℚ :=
        match truthy detail.uninterruptablePrice with
        | some p => some p
        | none => ([detail.communityPrice, detail.securePrice].filterMap truthy).min?
      match price with
      | none => none
      | some p =>
          if detail.communityCloud || detail.secureCloud then
            some (p, if detail.communityCloud then Cloud.community else Cloud.secure)
          else none

/-- One SKU offer from `runpod.get_gpus()`, with the per-SKU detail that
`runpod.get_gpu(g["id"])` would return carried alongside. -/
structure GpuOffer where
  id : String
  memoryInGb : ℚ
  detail : GpuDetail
deriving DecidableEq

/-- The two failure exits of `find_cheapest_gpu` (`raise SystemExit(...)`):
`NoCandidateError` is "No GPUs found with >= ... GB VRAM",
`NoAvailableError` is "No available GPUs with >= ... GB VRAM (cloud_type=...)". -/
inductive GpuError
  | NoCandidateError
  | NoAvailableError
deriving DecidableEq

/-- The accumulator loop of `find_cheapest_gpu`: `for gpu in candidates: ...`,
keeping `best` and replacing it only on a strictly smaller price. -/
def selectLoop (cloud_type : CloudType) :
    List GpuOffer → Option (String × ℚ × Cloud) → Option (String × ℚ × Cloud)
  | [], best => best
  | g :: gs, best =>
      match _get_price_and_cloud g.detail cloud_type with
      | none => selectLoop cloud_type gs best
      | some (price, resolved) =>
          match best with
          | none => selectLoop cloud_type gs (some (g.id, price, resolved))
          | some b =>
              if price < b.2.1 then selectLoop cloud_type gs (some (g.id, price, resolved))
              else selectLoop cloud_type gs (some b)

/-- Embeds `gpu.py` `find_cheapest_gpu(min_vram_gb, cloud_type)`: find the cheapest
available GPU with at least `min_vram_gb` VRAM among the offers `gpus`. -/
def find_cheapest_gpu (gpus : List GpuOffer) (min_vram_gb : ℚ) (cloud_type : CloudType) :
    Except GpuError (String × ℚ × Cloud) :=
  let candidates := gpus.filter (fun g => min_vram_gb ≤ g.memoryInGb)
  if candidates.isEmpty then Except.error GpuError.NoCandidateError
  else
    match selectLoop cloud_type candidates none with
    | none => Except.error GpuError.NoAvailableError
    | some best => Except.ok best

/-- The usable candidates, in input order: VRAM-eligible offers for which
`_get_price_and_cloud` yields a `(price, resolved_cloud)` pair, tagged with
their SKU id. -/
def usableCandidates (gpus : List GpuOffer) (min_vram_gb : ℚ) (cloud_type : CloudType) :
    List (String × ℚ × Cloud) :=
  (gpus.filter (fun g => min_vram_gb ≤ g.memoryInGb)).filterMap
    (fun g => (_get_price_and_cloud g.detail cloud_type).map (fun pc => (g.id, pc)))

/-- Specification-side selector: the first element of the list whose price is
less than or equal to every price in the list, i.e. the candidate with the
globally minimum price, ties broken by list order (first encountered wins). -/
def firstCheapest (l : List (String × ℚ × Cloud)) : Option (String × ℚ × Cloud) :=
  l.find? (fun x => l.all (fun y => decide (x.2.1 ≤ y.2.1)))

/-- The pure accumulator fold underlying `selectLoop`, on already-extracted
`(id, price, cloud)` triples. -/
def pickFold : List (String × ℚ × Cloud) → Option (String × ℚ × Cloud) →
    Option (String × ℚ × Cloud)
  | [], best => best
  | x :: xs, best =>
      match best with
      | none => pickFold xs (some x)
      | some b => if x.2.1 < b.2.1 then pickFold xs (some x) else pickFold xs (some b)

theorem selectLoop_eq_pickFold (cloud_type : CloudType) (gs : List GpuOffer)
    (best : Option (String × ℚ × Cloud)) :
    selectLoop cloud_type gs best =
      pickFold (gs.filterMap
        (fun g => (_get_price_and_cloud g.detail cloud_type).map (fun pc => (g.id, pc)))) best := by
  induction gs generalizing best with
  | nil => rfl
  | cons g gs ih =>
      rcases h : _get_price_and_cloud g.detail cloud_type with _ | ⟨price, resolved⟩
      · simp [selectLoop, h, List.filterMap_cons, ih]
      · rcases best with _ | b
        · simp [selectLoop, h, List.filterMap_cons, pickFold, ih]
        · simp only [selectLoop, h, List.filterMap_cons, Option.map_some', pickFold]
          by_cases hp : price < b.2.1 <;> simp [hp, ih]

theorem pickFold_spec (xs : List (String × ℚ × Cloud)) (b : String × ℚ × Cloud) :
    ∃ l1 c l2, pickFold xs (some b) = some c ∧ b :: xs = l1 ++ c :: l2 ∧
      (∀ y ∈ b :: xs, c.2.1 ≤ y.2.1) ∧ (∀ y ∈ l1, c.2.1 < y.2.1) := by
  induction xs generalizing b with
  | nil =>
      refine ⟨[], b, [], rfl, rfl, ?_, by simp⟩
      intro y hy
      simp only [List.mem_singleton] at hy
      simp [hy]
  | cons x xs ih =>
      by_cases hx : x.2.1 < b.2.1
      · obtain ⟨l1, c, l2, hpf, hdec, hmin, hlt⟩ := ih x
        have hcx : c.2.1 ≤ x.2.1 := hmin x (by simp)
        refine ⟨b :: l1, c, l2, ?_, ?_, ?_, ?_⟩
        · simpa [pickFold, hx] using hpf
        · simpa using congrArg (List.cons b) hdec
        · intro y hy
          rcases List.mem_cons.mp hy with rfl | hy
          · exact le_of_lt (lt_of_le_of_lt hcx hx)
          · exact hmin y hy
        · intro y hy
          rcases List.mem_cons.mp hy with rfl | hy
          · exact lt_of_le_of_lt hcx hx
          · exact hlt y hy
      · push_neg at hx
        obtain ⟨l1, c, l2, hpf, hdec, hmin, hlt⟩ := ih b
        rcases l1 with _ | ⟨a, l1⟩
        · simp only [List.nil_append, List.cons.injEq] at hdec
          obtain ⟨rfl, rfl⟩ := hdec
          refine ⟨[], b, x :: xs, ?_, rfl, ?_, by simp⟩
          · simpa [pickFold, not_lt.mpr hx] using hpf
          · intro y hy
            rcases List.mem_cons.mp hy with rfl | hy
            · exact le_refl _
            · rcases List.mem_cons.mp hy with rfl | hy
              · exact hx
              · exact hmin y (List.mem_cons_of_mem _ hy)
        · simp only [List.cons_append, List.cons.injEq] at hdec
          obtain ⟨rfl, hdec⟩ := hdec
          have hcb : c.2.1 < b.2.1 := hlt b (by simp)
          refine ⟨b :: x :: l1, c, l2, ?_, ?_, ?_, ?_⟩
          · simpa [pickFold, not_lt.mpr hx] using hpf
          · simp [hdec]
          · intro y hy
            rcases List.mem_cons.mp hy with rfl | hy
            · exact hmin y (by simp)
            · rcases List.mem_cons.mp hy with rfl | hy
              · exact le_of_lt (lt_of_lt_of_le hcb hx)
              · exact hmin y (List.mem_cons_of_mem _ hy)
          · intro y hy
            rcases List.mem_cons.mp hy with rfl | hy
            · exact hcb
            · rcases List.mem_cons.mp hy with rfl | hy
              · exact lt_of_lt_of_le hcb hx
              · exact hlt y (List.mem_cons_of_mem _ hy)

theorem find?_middle {α : Type} (p : α → Bool) (l1 l2 : List α) (c : α)
    (h1 : ∀ y ∈ l1, p y = false) (hc : p c = true) :
    List.find? p (l1 ++ c :: l2) = some c := by
  induction l1 with
  | nil => simp [List.find?_cons, hc]
  | cons a l1 ih =>
      have ha : p a = false := h1 a (by simp)
      simp only [List.cons_append, List.find?_cons, ha]
      exact ih (fun y hy => h1 y (by simp [hy]))

/-- C1: for every list of SKU offers, VRAM floor and cloud-type preference,
if at least one VRAM-eligible candidate yields a usable `(price, resolved-cloud)`
pair (i.e. `firstCheapest` of the usable candidates is `some r`, where
`firstCheapest` picks the candidate with the globally minimum usable price,
ties broken by input-list order, first encountered wins), then
`find_cheapest_gpu` returns exactly that candidate. -/
theorem find_cheapest_gpu_selects_global_min (gpus : List GpuOffer) (min_vram_gb : ℚ)
    (cloud_type : CloudType) (r : String × ℚ × Cloud)
    (h : firstCheapest (usableCandidates gpus min_vram_gb cloud_type) = some r) :
    find_cheapest_gpu gpus min_vram_gb cloud_type = Except.ok r := by
  have hne : usableCandidates gpus min_vram_gb cloud_type ≠ [] := by
    intro hnil
    rw [hnil] at h
    simp [firstCheapest] at h
  rcases hu : usableCandidates gpus min_vram_gb cloud_type with _ | ⟨x, us⟩
  · exact absurd hu hne
  have hcand : (gpus.filter (fun g => min_vram_gb ≤ g.memoryInGb)).isEmpty = false := by
    rcases hf : gpus.filter (fun g => min_vram_gb ≤ g.memoryInGb) with _ | ⟨g, gs⟩
    · exfalso
      apply hne
      simp [usableCandidates, hf]
    · rw [hf]
      rfl
  obtain ⟨l1, c, l2, hpf, hdec, hmin, hlt⟩ := pickFold_spec us x
  have hloop : selectLoop cloud_type (gpus.filter (fun g => min_vram_gb ≤ g.memoryInGb)) none
      = some c := by
    rw [selectLoop_eq_pickFold]
    have : (gpus.filter (fun g => min_vram_gb ≤ g.memoryInGb)).filterMap
        (fun g => (_get_price_and_cloud g.detail cloud_type).map (fun pc => (g.id, pc)))
        = x :: us := hu
    rw [this]
    simpa [pickFold] using hpf
  have hfirst : firstCheapest (usableCandidates gpus min_vram_gb cloud_type) = some c := by
    rw [hu, firstCheapest, hdec]
    apply find?_middle
    · intro y hy
      have hcy : c.2.1 < y.2.1 := hlt y hy
      have hcmem : c ∈ l1 ++ c :: l2 := by simp
      refine Bool.eq_false_iff.mpr (fun hall => ?_)
      rw [List.all_eq_true] at hall
      have hyc := hall c hcmem
      rw [decide_eq_true_eq] at hyc
      exact absurd hyc (not_le.mpr hcy)
    · simp only [List.all_eq_true, decide_eq_true_eq]
      intro y hy
      exact hmin y (by rw [hdec]; exact hy)
  have hrc : r = c := by
    rw [h] at hfirst
    exact Option.some.inj hfirst
  subst hrc
  simp [find_cheapest_gpu, hcand, hloop]

/-- Witness for C1: on the test fixture of `test_gpu.py` (A5000 cheapest,
A6000 and RTX 4090 pricier, all VRAM-eligible for floor 10; prices scaled to
integer cents), the selection returns the A5000 on community cloud. -/
theorem find_cheapest_gpu_selects_global_min_witness :
    find_cheapest_gpu
      [⟨"NVIDIA RTX A5000", 24, ⟨true, true, some 16, some 27, some 16⟩⟩,
       ⟨"NVIDIA RTX A6000", 48, ⟨true, true, some 32, some 44, some 32⟩⟩,
       ⟨"NVIDIA RTX 4090", 24, ⟨true, false, some 34, none, some 34⟩⟩]
      10 CloudType.any = Except.ok ("NVIDIA RTX A5000", 16, Cloud.community) := by
  apply find_cheapest_gpu_selects_global_min
  decide

/-- C2: `find_cheapest_gpu` fails with `NoCandidateError` exactly when no SKU in
the list has VRAM at or above the floor; it fails with `NoAvailableError` exactly
when some SKU meets the floor but no VRAM-eligible candidate yields a usable
`(price, resolved-cloud)` pair; and it fails (with either error) exactly when
there are no usable candidates at all, so the two failure conditions are mutually
exclusive and exhaustive over the failing cases. -/
theorem find_cheapest_gpu_failure_cases (gpus : List GpuOffer) (min_vram_gb : ℚ)
    (cloud_type : CloudType) :
    (find_cheapest_gpu gpus min_vram_gb cloud_type = Except.error GpuError.NoCandidateError ↔
      ∀ g ∈ gpus, g.memoryInGb < min_vram_gb) ∧
    (find_cheapest_gpu gpus min_vram_gb cloud_type = Except.error GpuError.NoAvailableError ↔
      ((∃ g ∈ gpus, min_vram_gb ≤ g.memoryInGb) ∧
        usableCandidates gpus min_vram_gb cloud_type = [])) ∧
    ((∃ e, find_cheapest_gpu gpus min_vram_gb cloud_type = Except.error e) ↔
      usableCandidates gpus min_vram_gb cloud_type = []) := by
  have hfilter : (gpus.filter (fun g => min_vram_gb ≤ g.memoryInGb) = []) ↔
      ∀ g ∈ gpus, g.memoryInGb < min_vram_gb := by
    rw [List.filter_eq_nil_iff]
    constructor
    · intro hall g hg
      have := hall g hg
      simpa using this
    · intro hall g hg
      simpa using hall g hg
  rcases hc : gpus.filter (fun g => min_vram_gb ≤ g.memoryInGb) with _ | ⟨g0, gs⟩
  · have husable : usableCandidates gpus min_vram_gb cloud_type = [] := by
      simp [usableCandidates, hc]
    have hres : find_cheapest_gpu gpus min_vram_gb cloud_type
        = Except.error GpuError.NoCandidateError := by
      simp [find_cheapest_gpu, hc]
    refine ⟨?_, ?_, ?_⟩
    · rw [hres]
      exact ⟨fun _ => hfilter.mp hc, fun _ => rfl⟩
    · rw [hres]
      constructor
      · intro h
        exact absurd h (by simp)
      · rintro ⟨⟨g, hg, hle⟩, -⟩
        exact absurd (hfilter.mp hc g hg) (not_lt.mpr hle)
    · rw [hres]
      exact ⟨fun _ => husable, fun _ => ⟨GpuError.NoCandidateError, rfl⟩⟩
  · have hne : ¬ (∀ g ∈ gpus, g.memoryInGb < min_vram_gb) := by
      intro hall
      have : gpus.filter (fun g => min_vram_gb ≤ g.memoryInGb) = [] := hfilter.mpr hall
      rw [hc] at this
      exact List.cons_ne_nil _ _ this
    have hex : ∃ g ∈ gpus, min_vram_gb ≤ g.memoryInGb := by
      have hg0 : g0 ∈ gpus.filter (fun g => min_vram_gb ≤ g.memoryInGb) := by
        rw [hc]; simp
      have := List.mem_filter.mp hg0
      exact ⟨g0, this.1, by simpa using this.2⟩
    have hloop : selectLoop cloud_type (gpus.filter (fun g => min_vram_gb ≤ g.memoryInGb)) none
        = pickFold (usableCandidates gpus min_vram_gb cloud_type) none := by
      rw [selectLoop_eq_pickFold]; rfl
    rcases hu : usableCandidates gpus min_vram_gb cloud_type with _ | ⟨x, us⟩
    · have hnone : selectLoop cloud_type (gpus.filter (fun g => min_vram_gb ≤ g.memoryInGb)) none
          = none := by rw [hloop, hu]; rfl
      rw [hc] at hnone
      have hres : find_cheapest_gpu gpus min_vram_gb cloud_type
          = Except.error GpuError.NoAvailableError := by
        simp [find_cheapest_gpu, hc, hnone]
      refine ⟨?_, ?_, ?_⟩
      · rw [hres]
        exact ⟨fun h => absurd h (by simp), fun h => absurd h hne⟩
      · rw [hres]
        exact ⟨fun _ => ⟨hex, rfl⟩, fun _ => rfl⟩
      · rw [hres]
        exact ⟨fun _ => rfl, fun _ => ⟨GpuError.NoAvailableError, rfl⟩⟩
    · obtain ⟨l1, c, l2, hpf, -, -, -⟩ := pickFold_spec us x
      have hsome : selectLoop cloud_type (gpus.filter (fun g => min_vram_gb ≤ g.memoryInGb)) none
          = some c := by
        rw [hloop, hu]
        simpa [pickFold] using hpf
      rw [hc] at hsome
      have hres : find_cheapest_gpu gpus min_vram_gb cloud_type = Except.ok c := by
        simp [find_cheapest_gpu, hc, hsome]
      refine ⟨?_, ?_, ?_⟩
      · rw [hres]
        exact ⟨fun h => absurd h (by simp), fun h => absurd h hne⟩
      · rw [hres]
        constructor
        · intro h
          exact absurd h (by simp)
        · rintro ⟨-, h⟩
          exact absurd h (List.cons_ne_nil _ _)
      · rw [hres]
        constructor
        · rintro ⟨e, h⟩
          exact absurd h (by simp)
        · intro h
          exact absurd h (List.cons_ne_nil _ _)

/-- Witness for C2: a single SKU below the floor gives `NoCandidateError`,
and a single eligible SKU with no availability flags gives `NoAvailableError`. -/
theorem find_cheapest_gpu_failure_cases_witness :
    find_cheapest_gpu [⟨"NVIDIA RTX A5000", 24, ⟨true, true, some 16, some 27, none⟩⟩]
      100 CloudType.any = Except.error GpuError.NoCandidateError ∧
    find_cheapest_gpu [⟨"NVIDIA RTX A5000", 24, ⟨false, false, none, none, some 20⟩⟩]
      10 CloudType.any = Except.error GpuError.NoAvailableError := by
  constructor
  · exact (find_cheapest_gpu_failure_cases _ 100 CloudType.any).1.mpr (by decide)
  · exact (find_cheapest_gpu_failure_cases _ 10 CloudType.any).2.1.mpr (by constructor <;> decide)

/-- C3: the per-candidate price/cloud resolution rules of `_get_price_and_cloud`.
Under `community` the candidate is usable exactly when the community availability
flag is set and a usable (truthy: non-null, nonzero) community price exists, and
it resolves to community at that price; symmetrically for `secure`.  Under `any`
the price is the provider's lowest-uninterruptable price when that is usable,
otherwise the minimum of whichever of the community/secure prices are usable;
the candidate is usable only if additionally at least one availability flag is
set, and it resolves to community whenever the community flag is set, else
secure. -/
theorem get_price_and_cloud_rules (d : GpuDetail) :
    (∀ p c, _get_price_and_cloud d CloudType.community = some (p, c) ↔
      (d.communityCloud = true ∧ truthy d.communityPrice = some p ∧ c = Cloud.community)) ∧
    (∀ p c, _get_price_and_cloud d CloudType.secure = some (p, c) ↔
      (d.secureCloud = true ∧ truthy d.securePrice = some p ∧ c = Cloud.secure)) ∧
    (∀ p c, _get_price_and_cloud d CloudType.any = some (p, c) ↔
      ((truthy d.uninterruptablePrice = some p ∨
        (truthy d.uninterruptablePrice = none ∧
          ([d.communityPrice, d.securePrice].filterMap truthy).min? = some p)) ∧
       (d.communityCloud = true ∨ d.secureCloud = true) ∧
       c = (if d.communityCloud then Cloud.community else Cloud.secure))) := by
  refine ⟨?_, ?_, ?_⟩
  · intro p c
    cases hcc : d.communityCloud <;>
      rcases htp : truthy d.communityPrice with _ | q <;>
        simp [_get_price_and_cloud, hcc, htp, and_comm, eq_comm]
  · intro p c
    cases hsc : d.secureCloud <;>
      rcases htp : truthy d.securePrice with _ | q <;>
        simp [_get_price_and_cloud, hsc, htp, and_comm, eq_comm]
  · intro p c
    rcases htu : truthy d.uninterruptablePrice with _ | q
    · rcases hmin : ([d.communityPrice, d.securePrice].filterMap truthy).min? with _ | m
      · cases hcc : d.communityCloud <;> cases hsc : d.secureCloud <;>
          simp [_get_price_and_cloud, htu, hmin, hcc, hsc]
      · cases hcc : d.communityCloud <;> cases hsc : d.secureCloud <;>
          simp [_get_price_and_cloud, htu, hmin, hcc, hsc, and_comm, eq_comm]
    · cases hcc : d.communityCloud <;> cases hsc : d.secureCloud <;>
        simp [_get_price_and_cloud, htu, hcc, hsc, and_comm, eq_comm]

/-- Witness for C3: a detail dict with both clouds available, community price
0.16 (16 cents), secure price 0.27, no lowest-uninterruptable price: under
`any` the minimum existing price 16 is chosen and the cloud resolves to
community. -/
theorem get_price_and_cloud_rules_witness :
    _get_price_and_cloud ⟨true, true, some 16, some 27, none⟩ CloudType.any
      = some (16, Cloud.community) := by
  refine ((get_price_and_cloud_rules ⟨true, true, some 16, some 27, none⟩).2.2 16
    Cloud.community).mpr ?_
  refine ⟨Or.inr ⟨rfl, ?_⟩, Or.inl rfl, rfl⟩
  decide

/-! ## `pod.py`: provisioning, readiness waiting, endpoint resolution -/

def OLLAMA_IMAGE : String := "surajarogyalabs/kenai-ollama:latest"

def OLLAMA_PORT : ℕ := 11434

def POLL_INTERVAL_S : ℕ := 5

/-- The default of the `timeout` parameter of `wait_for_ready`. -/
def DEFAULT_WAIT_TIMEOUT_S : ℕ := 300

/-- Embeds `pod.py` `CLOUD_TYPE_MAP`: CLI cloud_type values to RunPod mutation values. -/
def CLOUD_TYPE_MAP : CloudType → String
  | CloudType.any => "ALL"
  | CloudType.community => "COMMUNITY"
  | CloudType.secure => "SECURE"

/-- One entry of a runtime's `"ports"` list. -/
structure PortInfo where
  privatePort : Option ℕ
  publicPort : Option ℕ
  ip : Option String
  type : Option String
deriving DecidableEq

/-- A runtime descriptor (`pod["runtime"]`): `ports` models
`runtime.get("ports") or []`, collapsing a missing/null list to `[]`. -/
structure Runtime where
  ports : List PortInfo
deriving DecidableEq

/-- Models `pod.get("machine") or \x7b\x7d`, of which only `gpuDisplayName` is read. -/
structure Machine where
  gpuDisplayName : Option String
deriving DecidableEq

/-- An instance record as the provider returns it (`runpod.get_pod` /
`runpod.get_pods`).  `runtime = none` models a missing, null or empty (falsy)
runtime descriptor; `ports` is the flat port-spec string (e.g. `"11434/tcp"`)
present on list-query results. -/
structure Pod where
  id : String
  runtime : Option Runtime
  desiredStatus : Option String
  ports : Option String
  name : Option String
  machine : Option Machine
  networkVolumeId : Option String
  costPerHr : Option ℚ
  lastStatusChange : Option String
deriving DecidableEq

/-- The keyword arguments assembled by `create_ollama_pod` for
`runpod.create_pod`; `none` in an optional field means the key is absent. -/
structure PodRequest where
  name : String
  imageName : String
  gpuTypeId : String
  cloudType : String
  ports : String
  containerDiskInGb : ℕ
  networkVolumeId : Option String
  volumeMountPath : Option String
  volumeInGb : Option ℕ
deriving DecidableEq

/-- The `kwargs` construction in `create_ollama_pod` (`pod.py`). -/
def buildPodRequest (gpu_type_id : String) (pod_name : String)
    (network_volume_id : Option String) (cloud_type : String)
    (image : Option String) : PodRequest :=
  { name := "ollama-" ++ pod_name
    imageName := match image with
      | none => OLLAMA_IMAGE
      | some s => if s == "" then OLLAMA_IMAGE else s
    gpuTypeId := gpu_type_id
    cloudType := cloud_type
    ports := toString OLLAMA_PORT ++ "/tcp"
    containerDiskInGb := 20
    networkVolumeId := if strTruthy network_volume_id then network_volume_id else none
    volumeMountPath := if strTruthy network_volume_id then some "/runpod-volume" else none
    volumeInGb := if strTruthy network_volume_id then none else some 50 }

/-- The enriched diagnostic raised when RunPod rejects the deployment and a
volume is attached under a constrained cloud type (`pod.py`). -/
def enrichedRejectionMsg (msg gpu_type_id cloud_type volume_id : String) : String :=
  "RunPod rejected deployment: " ++ msg ++ "\n  GPU " ++ gpu_type_id ++
    " may not be available as " ++ cloud_type.toLower ++
    " cloud in the datacenter pinned by volume " ++ volume_id ++
    ".\n  Try --cloud-type any, or pick a different --gpu-type."

/-- The generic rejection diagnostic (`pod.py`). -/
def genericRejectionMsg (msg : String) : String :=
  "RunPod rejected deployment: " ++ msg

/-- Embeds `pod.py` `create_ollama_pod`: build the creation request, issue it, and on
a provider rejection (`QueryError`, carried here as `Except.error msg`) raise
either the enriched or the generic diagnostic. Returns the new pod's id. -/
def create_ollama_pod (create_pod : PodRequest → Except String Pod)
    (gpu_type_id : String) (pod_name : String) (network_volume_id : Option String)
    (cloud_type : String) (image : Option String) : Except String String :=
  let kwargs := buildPodRequest gpu_type_id pod_name network_volume_id cloud_type image
  match create_pod kwargs with
  | Except.ok pod => Except.ok pod.id
  | Except.error msg =>
      if strTruthy network_volume_id && !(cloud_type == "ALL") then
        Except.error
          (enrichedRejectionMsg msg gpu_type_id cloud_type (network_volume_id.getD ""))
      else Except.error (genericRejectionMsg msg)

/-- The two ways `wait_for_ready` can fail: an exception raised by the status
call itself (propagated immediately, never retried) or the `SystemExit`
timeout message. -/
inductive WaitError
  | pollError (msg : String)
  | timeoutError (pod_id : String) (timeout : ℕ)
deriving DecidableEq

/-- The polling loop of `wait_for_ready`: `get_pod k` is the provider's
response to the `k`-th status call (0-based); the `k`-th call happens at
elapsed time `POLL_INTERVAL_S * k` seconds, and the loop runs while that is
strictly below `timeout` (the `time.monotonic() < deadline` check, with each
iteration sleeping `POLL_INTERVAL_S` seconds). -/
def waitLoop (get_pod : ℕ → Except String Pod) (pod_id : String) (timeout : ℕ)
    (k : ℕ) : Except WaitError Pod :=
  if h : POLL_INTERVAL_S * k < timeout then
    match get_pod k with
    | Except.error e => Except.error (WaitError.pollError e)
    | Except.ok pod =>
        if pod.runtime.isSome then Except.ok pod
        else waitLoop get_pod pod_id timeout (k + 1)
  else Except.error (WaitError.timeoutError pod_id timeout)
termination_by timeout - POLL_INTERVAL_S * k
decreasing_by simp only [POLL_INTERVAL_S] at *; omega

/-- Embeds `pod.py` `wait_for_ready(pod_id, timeout)`: poll until the pod's runtime
is populated, returning the pod record. -/
def wait_for_ready (get_pod : ℕ → Except String Pod) (pod_id : String)
    (timeout : ℕ) : Except WaitError Pod :=
  waitLoop get_pod pod_id timeout 0

/-- Models `runtime = pod.get("runtime") or ...` followed by `runtime.get("ports") or []`. -/
def podPorts (pod : Pod) : List PortInfo :=
  match pod.runtime with
  | none => []
  | some r => r.ports

/-- The scan condition of `get_endpoint`:
`port_info.get("privatePort") == OLLAMA_PORT and port_info.get("ip")`. -/
def portMatches (port_info : PortInfo) : Bool :=
  port_info.privatePort == some OLLAMA_PORT && strTruthy port_info.ip

/-- Embeds `pod.py` `get_endpoint(pod)`: prefer the first port mapping of the Ollama
port with a truthy ip, else fall back to the RunPod proxy URL.
`Except.error ()` models the `KeyError` Python would raise if the matching
entry had no `"publicPort"` key. -/
def get_endpoint (pod : Pod) : Except Unit String :=
  match (podPorts pod).find? portMatches with
  | some port_info =>
      match port_info.publicPort with
      | none => Except.error ()
      | some public_port =>
          let ip := port_info.ip.getD ""
          let protocol := if port_info.type == some "http" then "https" else "http"
          Except.ok (protocol ++ "://" ++ ip ++ ":" ++ toString public_port)
  | none =>
      Except.ok ("https://" ++ pod.id ++ "-" ++ toString OLLAMA_PORT ++ ".proxy.runpod.net")

/-- Holds when `sub` occurs as a contiguous substring of `s`. -/
def ContainsStr (s sub : String) : Prop := sub.data <:+: s.data

theorem containsStr_of_parts (a sub b : String) : ContainsStr (a ++ sub ++ b) sub := by
  refine ⟨a.data, b.data, ?_⟩
  simp [String.data_append]

/-- C4: when the provider rejects the creation request (every `QueryError`,
in particular one tied to resource unavailability): if a volume identifier was
supplied (truthy) and the cloud-type constraint is not the unconstrained
`"ALL"` value, the raised error is the enriched diagnostic, which names the
SKU identifier, the lowercased cloud-type constraint and the volume
identifier and suggests retrying with the unconstrained cloud type or a
different SKU; in every other rejected case the error carries only the
generic rejection message. -/
theorem create_ollama_pod_rejection_diagnostics
    (create_pod : PodRequest → Except String Pod) (gpu_type_id pod_name : String)
    (network_volume_id : Option String) (cloud_type : String) (image : Option String)
    (msg : String)
    (hrej : create_pod (buildPodRequest gpu_type_id pod_name network_volume_id cloud_type image)
      = Except.error msg) :
    ((strTruthy network_volume_id = true ∧ cloud_type ≠ "ALL") →
      create_ollama_pod create_pod gpu_type_id pod_name network_volume_id cloud_type image
        = Except.error
            (enrichedRejectionMsg msg gpu_type_id cloud_type (network_volume_id.getD "")) ∧
      ContainsStr (enrichedRejectionMsg msg gpu_type_id cloud_type (network_volume_id.getD ""))
        gpu_type_id ∧
      ContainsStr (enrichedRejectionMsg msg gpu_type_id cloud_type (network_volume_id.getD ""))
        cloud_type.toLower ∧
      ContainsStr (enrichedRejectionMsg msg gpu_type_id cloud_type (network_volume_id.getD ""))
        (network_volume_id.getD "") ∧
      ContainsStr (enrichedRejectionMsg msg gpu_type_id cloud_type (network_volume_id.getD ""))
        "Try --cloud-type any, or pick a different --gpu-type.") ∧
    (¬ (strTruthy network_volume_id = true ∧ cloud_type ≠ "ALL") →
      create_ollama_pod create_pod gpu_type_id pod_name network_volume_id cloud_type image
        = Except.error (genericRejectionMsg msg)) := by
  constructor
  · rintro ⟨h1, h2⟩
    have hcond : (strTruthy network_volume_id && !(cloud_type == "ALL")) = true := by
      simp [h1, h2]
    refine ⟨?_, ?_, ?_, ?_, ?_⟩
    · simp [create_ollama_pod, hrej, hcond]
    · have : enrichedRejectionMsg msg gpu_type_id cloud_type (network_volume_id.getD "")
          = ("RunPod rejected deployment: " ++ msg ++ "\n  GPU ") ++ gpu_type_id ++
            (" may not be available as " ++ cloud_type.toLower ++
              " cloud in the datacenter pinned by volume " ++ (network_volume_id.getD "") ++
              ".\n  Try --cloud-type any, or pick a different --gpu-type.") := by
        apply String.ext
        simp [enrichedRejectionMsg, String.data_append]
      rw [this]
      exact containsStr_of_parts _ _ _
    · have : enrichedRejectionMsg msg gpu_type_id cloud_type (network_volume_id.getD "")
          = ("RunPod rejected deployment: " ++ msg ++ "\n  GPU " ++ gpu_type_id ++
              " may not be available as ") ++ cloud_type.toLower ++
            (" cloud in the datacenter pinned by volume " ++ (network_volume_id.getD "") ++
              ".\n  Try --cloud-type any, or pick a different --gpu-type.") := by
        apply String.ext
        simp [enrichedRejectionMsg, String.data_append]
      rw [this]
      exact containsStr_of_parts _ _ _
    · have : enrichedRejectionMsg msg gpu_type_id cloud_type (network_volume_id.getD "")
          = ("RunPod rejected deployment: " ++ msg ++ "\n  GPU " ++ gpu_type_id ++
              " may not be available as " ++ cloud_type.toLower ++
              " cloud in the datacenter pinned by volume ") ++ (network_volume_id.getD "") ++
            ".\n  Try --cloud-type any, or pick a different --gpu-type." := by
        apply String.ext
        simp [enrichedRejectionMsg, String.data_append]
      rw [this]
      exact containsStr_of_parts _ _ _
    · have : enrichedRejectionMsg msg gpu_type_id cloud_type (network_volume_id.getD "")
          = ("RunPod rejected deployment: " ++ msg ++ "\n  GPU " ++ gpu_type_id ++
              " may not be available as " ++ cloud_type.toLower ++
              " cloud in the datacenter pinned by volume " ++ (network_volume_id.getD "") ++
              ".\n  ") ++ "Try --cloud-type any, or pick a different --gpu-type." ++ "" := by
        apply String.ext
        simp [enrichedRejectionMsg, String.data_append]
      rw [this]
      exact containsStr_of_parts _ _ _
  · intro hnot
    have hcond : (strTruthy network_volume_id && !(cloud_type == "ALL")) = false := by
      rcases Bool.eq_false_or_eq_true (strTruthy network_volume_id) with h1 | h1
      · have h2 : cloud_type = "ALL" := by
          by_contra h2
          exact hnot ⟨h1, h2⟩
        simp [h2]
      · simp [h1]
    simp [create_ollama_pod, hrej, hcond]

/-- Witness for C4: the scenario of
`test_create_ollama_pod_query_error_with_volume_gives_actionable_message`:
rejection message "No resources available", volume `vol-xyz`, cloud type
`SECURE` — the enriched diagnostic is raised and names the volume. -/
theorem create_ollama_pod_rejection_diagnostics_witness :
    create_ollama_pod (fun _ => Except.error "No resources available")
      "NVIDIA RTX 2000 Ada" "default" (some "vol-xyz") "SECURE" none
      = Except.error (enrichedRejectionMsg "No resources available" "NVIDIA RTX 2000 Ada"
          "SECURE" "vol-xyz") ∧
    ContainsStr (enrichedRejectionMsg "No resources available" "NVIDIA RTX 2000 Ada"
      "SECURE" "vol-xyz") "vol-xyz" := by
  have h := (create_ollama_pod_rejection_diagnostics
    (fun _ => Except.error "No resources available") "NVIDIA RTX 2000 Ada" "default"
    (some "vol-xyz") "SECURE" none "No resources available" rfl).1 ⟨rfl, by decide⟩
  exact ⟨h.1, h.2.2.2.1⟩

theorem waitLoop_ready (get_pod : ℕ → Except String Pod) (pod_id : String) (timeout : ℕ)
    (n : ℕ) (p : Pod) (hn : POLL_INTERVAL_S * n < timeout)
    (hp : get_pod n = Except.ok p) (hready : p.runtime.isSome = true)
    (hbefore : ∀ j, j < n → ∃ q, get_pod j = Except.ok q ∧ q.runtime = none) :
    ∀ d k, n = k + d → waitLoop get_pod pod_id timeout k = Except.ok p := by
  intro d
  induction d with
  | zero =>
      intro k hk
      have hkn : k = n := by omega
      subst hkn
      rw [waitLoop, dif_pos hn, hp]
      simp [hready]
  | succ d ih =>
      intro k hk
      have hklt : k < n := by omega
      obtain ⟨q, hq, hqnone⟩ := hbefore k hklt
      have hcond : POLL_INTERVAL_S * k < timeout := by
        have : POLL_INTERVAL_S * k ≤ POLL_INTERVAL_S * n :=
          Nat.mul_le_mul_left _ (Nat.le_of_lt hklt)
        omega
      rw [waitLoop, dif_pos hcond, hq]
      simp only [hqnone, Option.isSome_none, Bool.false_eq_true, if_false]
      exact ih (k + 1) (by omega)

theorem waitLoop_timeout (get_pod : ℕ → Except String Pod) (pod_id : String) (timeout : ℕ)
    (hnever : ∀ j, POLL_INTERVAL_S * j < timeout →
      ∃ q, get_pod j = Except.ok q ∧ q.runtime = none) :
    ∀ fuel k, timeout ≤ POLL_INTERVAL_S * k + fuel →
      waitLoop get_pod pod_id timeout k = Except.error (WaitError.timeoutError pod_id timeout) := by
  intro fuel
  induction fuel with
  | zero =>
      intro k hk
      rw [waitLoop, dif_neg (by omega)]
  | succ fuel ih =>
      intro k hk
      by_cases hcond : POLL_INTERVAL_S * k < timeout
      · obtain ⟨q, hq, hqnone⟩ := hnever k hcond
        rw [waitLoop, dif_pos hcond, hq]
        simp only [hqnone, Option.isSome_none, Bool.false_eq_true, if_false]
        apply ih
        simp only [POLL_INTERVAL_S] at *
        omega
      · rw [waitLoop, dif_neg hcond]

theorem waitLoop_propagates (get_pod : ℕ → Except String Pod) (pod_id : String)
    (timeout : ℕ) (n : ℕ) (e : String) (hn : POLL_INTERVAL_S * n < timeout)
    (he : get_pod n = Except.error e)
    (hbefore : ∀ j, j < n → ∃ q, get_pod j = Except.ok q ∧ q.runtime = none) :
    ∀ d k, n = k + d →
      waitLoop get_pod pod_id timeout k = Except.error (WaitError.pollError e) := by
  intro d
  induction d with
  | zero =>
      intro k hk
      have hkn : k = n := by omega
      subst hkn
      rw [waitLoop, dif_pos hn, he]
  | succ d ih =>
      intro k hk
      have hklt : k < n := by omega
      obtain ⟨q, hq, hqnone⟩ := hbefore k hklt
      have hcond : POLL_INTERVAL_S * k < timeout := by
        have : POLL_INTERVAL_S * k ≤ POLL_INTERVAL_S * n :=
          Nat.mul_le_mul_left _ (Nat.le_of_lt hklt)
        omega
      rw [waitLoop, dif_pos hcond, hq]
      simp only [hqnone, Option.isSome_none, Bool.false_eq_true, if_false]
      exact ih (k + 1) (by omega)

/-- C5: `wait_for_ready` polls the status at a fixed `POLL_INTERVAL_S = 5`
second interval (poll `k` at elapsed time `5 * k`, issued while that is
below the timeout, whose Python default is 300 s):
it returns the full record of the first poll whose runtime descriptor is
non-empty/non-null; if every issued poll sees no runtime it fails with the
timeout error; and an error raised by the status call itself propagates
immediately — only the "not yet ready" condition is retried. -/
theorem wait_for_ready_polling_behavior (get_pod : ℕ → Except String Pod)
    (pod_id : String) (timeout : ℕ) :
    (∀ n p, POLL_INTERVAL_S * n < timeout → get_pod n = Except.ok p →
      p.runtime.isSome = true →
      (∀ j, j < n → ∃ q, get_pod j = Except.ok q ∧ q.runtime = none) →
      wait_for_ready get_pod pod_id timeout = Except.ok p) ∧
    ((∀ j, POLL_INTERVAL_S * j < timeout → ∃ q, get_pod j = Except.ok q ∧ q.runtime = none) →
      wait_for_ready get_pod pod_id timeout
        = Except.error (WaitError.timeoutError pod_id timeout)) ∧
    (∀ n e, POLL_INTERVAL_S * n < timeout → get_pod n = Except.error e →
      (∀ j, j < n → ∃ q, get_pod j = Except.ok q ∧ q.runtime = none) →
      wait_for_ready get_pod pod_id timeout = Except.error (WaitError.pollError e)) ∧
    POLL_INTERVAL_S = 5 ∧ DEFAULT_WAIT_TIMEOUT_S = 300 := by
  refine ⟨?_, ?_, ?_, rfl, rfl⟩
  · intro n p hn hp hready hbefore
    exact waitLoop_ready get_pod pod_id timeout n p hn hp hready hbefore n 0 (by omega)
  · intro hnever
    exact waitLoop_timeout get_pod pod_id timeout hnever timeout 0 (by omega)
  · intro n e hn he hbefore
    exact waitLoop_propagates get_pod pod_id timeout n e hn he hbefore n 0 (by omega)

/-- A pod record with no runtime descriptor yet. -/
def demoPodPending : Pod := ⟨"pod-123", none, none, none, none, none, none, none, none⟩

/-- The same pod once its runtime descriptor is populated. -/
def demoPodReady : Pod := ⟨"pod-123", some ⟨[]⟩, none, none, none, none, none, none, none⟩

/-- Witness for C5: the `test_wait_for_ready_succeeds` scenario (no runtime on
poll 0, runtime on poll 1, returned as-is) and the
`test_wait_for_ready_timeout` scenario (never a runtime, timeout error). -/
theorem wait_for_ready_polling_behavior_witness :
    wait_for_ready (fun k => if k = 0 then Except.ok demoPodPending else Except.ok demoPodReady)
      "pod-123" 30 = Except.ok demoPodReady ∧
    wait_for_ready (fun _ => Except.ok demoPodPending) "pod-123" 1
      = Except.error (WaitError.timeoutError "pod-123" 1) := by
  constructor
  · refine (wait_for_ready_polling_behavior _ "pod-123" 30).1 1 demoPodReady (by decide) rfl rfl ?_
    intro j hj
    have hj0 : j = 0 := by omega
    subst hj0
    exact ⟨demoPodPending, rfl, rfl⟩
  · refine (wait_for_ready_polling_behavior _ "pod-123" 1).2.1 ?_
    intro j hj
    exact ⟨demoPodPending, rfl, rfl⟩

/-- C6: `get_endpoint` scans the runtime's port-mapping list for the first
entry whose private port equals the fixed service port 11434 and which has an
assigned (truthy) public address (`portMatches`); given that entry carries a
public port, it returns `protocol://ip:public_port` with protocol `https`
exactly when the mapping type is `http` and `http` otherwise; when no entry
matches it returns the provider reverse-proxy URL templated from the instance
identifier and the service port. -/
theorem get_endpoint_resolution (pod : Pod) :
    (∀ l1 port_info l2 public_port,
      podPorts pod = l1 ++ port_info :: l2 →
      (∀ q ∈ l1, portMatches q = false) →
      portMatches port_info = true →
      port_info.publicPort = some public_port →
      get_endpoint pod = Except.ok
        ((if port_info.type == some "http" then "https" else "http") ++ "://" ++
          port_info.ip.getD "" ++ ":" ++ toString public_port)) ∧
    ((∀ q ∈ podPorts pod, portMatches q = false) →
      get_endpoint pod = Except.ok
        ("https://" ++ pod.id ++ "-" ++ toString OLLAMA_PORT ++ ".proxy.runpod.net")) := by
  constructor
  · intro l1 port_info l2 public_port hdec hnone hmatch hpp
    have hfind : (podPorts pod).find? portMatches = some port_info := by
      rw [hdec]
      exact find?_middle portMatches l1 l2 port_info hnone hmatch
    simp [get_endpoint, hfind, hpp]
  · intro hall
    have hfind : (podPorts pod).find? portMatches = none :=
      List.find?_eq_none.mpr (fun x hx => by simp [hall x hx])
    simp [get_endpoint, hfind]

/-- The spec's example pod: a TCP mapping of private port 11434 to
`194.68.1.1:30042`. -/
def demoTcpPod : Pod :=
  ⟨"abc123", some ⟨[⟨some 11434, some 30042, some "194.68.1.1", some "tcp"⟩]⟩,
    none, none, none, none, none, none, none⟩

/-- The spec's fallback example pod: no port mappings at all. -/
def demoProxyPod : Pod := ⟨"abc123", some ⟨[]⟩, none, none, none, none, none, none, none⟩

/-- Witness for C6: the spec's two examples — the TCP mapping yields
`http://194.68.1.1:30042`, no mapping yields the proxy URL. -/
theorem get_endpoint_resolution_witness :
    get_endpoint demoTcpPod = Except.ok "http://194.68.1.1:30042" ∧
    get_endpoint demoProxyPod = Except.ok "https://abc123-11434.proxy.runpod.net" := by
  constructor
  · have h := (get_endpoint_resolution demoTcpPod).1 []
      ⟨some 11434, some 30042, some "194.68.1.1", some "tcp"⟩ [] 30042 rfl
      (by intro q hq; cases hq) (by decide) rfl
    rw [h]
    rfl
  · have h := (get_endpoint_resolution demoProxyPod).2 (by intro q hq; cases hq)
    rw [h]
    rfl

/-! ## `model_info.py`: model size estimation from the registry manifest -/

def MODEL_MEDIA_TYPE : String := "application/vnd.ollama.image.model"

/-- Embeds `VRAM_OVERHEAD_FACTOR = 1.2`, as the exact rational `6 / 5`. -/
def VRAM_OVERHEAD_FACTOR : ℚ := 6 / 5

/-- Embeds `model_info.py` `parse_model`: split `name:tag` at the first colon,
defaulting the tag to `latest` when the model name carries no colon. -/
def parse_model (model : String) : String × String :=
  if model.data.contains ':' then
    let parts := model.splitOn ":"
    (parts.headD "", String.intercalate ":" parts.tail)
  else (model, "latest")

/-- One entry of the manifest's `"layers"` list; `size` is `layer["size"]`. -/
structure Layer where
  mediaType : Option String
  size : ℕ
deriving DecidableEq

/-- The manifest JSON body; `layers` models `manifest.get("layers", [])`. -/
structure Manifest where
  layers : List Layer
deriving DecidableEq

/-- The registry's response to `GET {REGISTRY_BASE}/{name}/manifests/{tag}`:
a 404, another non-success status (which `raise_for_status` turns into an
exception), or a manifest body. -/
inductive RegistryResponse
  | notFound
  | httpError (status : ℕ)
  | success (manifest : Manifest)
deriving DecidableEq

/-- The failure exits of `get_model_size_gb`: the 404 `SystemExit`, the
`raise_for_status` exception, and the zero-weight-sum `SystemExit`. -/
inductive ModelInfoError
  | NotFoundError (model : String)
  | HttpStatusError (status : ℕ)
  | NoWeightLayersError (model : String)
deriving DecidableEq

/-- The `total_bytes` sum of `get_model_size_gb`: byte sizes of exactly the
layers whose media type is the model-weight media type. -/
def weightBytes (manifest : Manifest) : ℕ :=
  ((manifest.layers.filter (fun l => l.mediaType == some MODEL_MEDIA_TYPE)).map
    Layer.size).sum

/-- Embeds `model_info.py` `get_model_size_gb(model)`: query the registry (modelled
as a response function of the resolved name and tag) for the model weight
size in (binary) GB. -/
def get_model_size_gb (registry : String → String → RegistryResponse) (model : String) :
    Except ModelInfoError ℚ :=
  let nt := parse_model model
  match registry nt.1 nt.2 with
  | RegistryResponse.notFound => Except.error (ModelInfoError.NotFoundError model)
  | RegistryResponse.httpError status => Except.error (ModelInfoError.HttpStatusError status)
  | RegistryResponse.success manifest =>
      let total_bytes := weightBytes manifest
      if total_bytes = 0 then Except.error (ModelInfoError.NoWeightLayersError model)
      else Except.ok ((total_bytes : ℚ) / 1024 ^ 3)

/-- Embeds `model_info.py` `estimate_vram_gb(model)`: model size times the overhead
factor. -/
def estimate_vram_gb (registry : String → String → RegistryResponse) (model : String) :
    Except ModelInfoError ℚ :=
  (get_model_size_gb registry model).map (fun s => s * VRAM_OVERHEAD_FACTOR)

/-- C7: the VRAM estimate is the sum of the byte sizes of exactly the
model-weight layers, divided by `1024 ^ 3` and multiplied by the overhead
factor 1.2; a registry 404 fails with the not-found error; a zero weight-layer
sum fails with the no-weight-layers error; and a model name without a colon is
resolved with tag `latest`. -/
theorem estimate_vram_rules (registry : String → String → RegistryResponse)
    (model : String) :
    (∀ m, registry (parse_model model).1 (parse_model model).2 = RegistryResponse.success m →
      weightBytes m ≠ 0 →
      estimate_vram_gb registry model
        = Except.ok ((weightBytes m : ℚ) / 1024 ^ 3 * VRAM_OVERHEAD_FACTOR)) ∧
    (registry (parse_model model).1 (parse_model model).2 = RegistryResponse.notFound →
      estimate_vram_gb registry model = Except.error (ModelInfoError.NotFoundError model)) ∧
    (∀ m, registry (parse_model model).1 (parse_model model).2 = RegistryResponse.success m →
      weightBytes m = 0 →
      estimate_vram_gb registry model
        = Except.error (ModelInfoError.NoWeightLayersError model)) ∧
    (model.data.contains ':' = false → parse_model model = (model, "latest")) := by
  refine ⟨?_, ?_, ?_, ?_⟩
  · intro m hm hnz
    simp [estimate_vram_gb, get_model_size_gb, Except.map, hm, hnz]
  · intro hm
    simp [estimate_vram_gb, get_model_size_gb, Except.map, hm]
  · intro m hm hz
    simp [estimate_vram_gb, get_model_size_gb, Except.map, hm, hz]
  · intro hnc
    simp only [parse_model, hnc, Bool.false_eq_true, if_false]

/-- The spec's example manifest: one model-weight layer of `4 * 1024 ^ 3`
bytes and one non-model (license) layer of 1000 bytes. -/
def demoManifest : Manifest :=
  ⟨[⟨some MODEL_MEDIA_TYPE, 4 * 1024 ^ 3⟩,
    ⟨some "application/vnd.ollama.image.license", 1000⟩]⟩

/-- Witness for C7: the example manifest yields an estimate of
`4 * 1.2 = 4.8` GB (`24 / 5`), a 404 yields the not-found error, and
`parse_model "llama3"` resolves to tag `latest`. -/
theorem estimate_vram_rules_witness :
    estimate_vram_gb (fun _ _ => RegistryResponse.success demoManifest) "llama3"
      = Except.ok (24 / 5) ∧
    estimate_vram_gb (fun _ _ => RegistryResponse.notFound) "nonexistent:v1"
      = Except.error (ModelInfoError.NotFoundError "nonexistent:v1") ∧
    parse_model "llama3" = ("llama3", "latest") := by
  have hwb : weightBytes demoManifest = 4 * 1024 ^ 3 := by decide
  refine ⟨?_, ?_, ?_⟩
  · have h := (estimate_vram_rules (fun _ _ => RegistryResponse.success demoManifest)
      "llama3").1 demoManifest rfl (by rw [hwb]; norm_num)
    rw [h, hwb, VRAM_OVERHEAD_FACTOR]
    norm_num
  · exact (estimate_vram_rules (fun _ _ => RegistryResponse.notFound) "nonexistent:v1").2.1 rfl
  · exact (estimate_vram_rules (fun _ _ => RegistryResponse.success demoManifest)
      "llama3").2.2.2 (by decide)

/-! ## `cli.py`: local durable state (`~/.ollama-pod/pods/<name>.json`) -/

/-- The tracked pod record persisted by `_save_state` (`cli.py`).  `name` is
the `"name"` key that `_save_state` stamps into the document before writing. -/
structure PodState where
  pod_id : String
  model : String
  endpoint : String
  gpu_type : String
  cost_per_hr : ℚ
  network_volume_id : Option String
  created_at : String
  name : Option String
deriving DecidableEq

/-- The state directory: one entry per file `<name>.json`, keyed by name.
The representation keeps at most one entry per key (writes replace). -/
abbrev StateStore := List (String × PodState)

/-- The in-place mutation `state["name"] = name` performed by `_save_state`. -/
def stampName (pod_name : String) (state : PodState) : PodState :=
  { state with name := some pod_name }

/-- Embeds `cli.py` `_save_state(name, state)`: stamp the name into the document and
write it to `<name>.json`, replacing any previous file of that name. -/
def _save_state (store : StateStore) (pod_name : String) (state : PodState) : StateStore :=
  (pod_name, stampName pod_name state) :: store.filter (fun kv => kv.1 != pod_name)

/-- Embeds `cli.py` `_load_state(name)`: the stored document, or `none` if the file
does not exist. -/
def _load_state (store : StateStore) (pod_name : String) : Option PodState :=
  (store.find? (fun kv => kv.1 == pod_name)).map Prod.snd

/-- Embeds `cli.py` `_clear_state(name)`: delete `<name>.json` if it exists;
a missing file is not an error. -/
def _clear_state (store : StateStore) (pod_name : String) : StateStore :=
  store.filter (fun kv => kv.1 != pod_name)

theorem load_save_self (store : StateStore) (pod_name : String) (state : PodState) :
    _load_state (_save_state store pod_name state) pod_name
      = some (stampName pod_name state) := by
  simp [_load_state, _save_state, List.find?_cons]

theorem load_clear (store : StateStore) (pod_name : String) :
    _load_state (_clear_state store pod_name) pod_name = none := by
  have hfind : (store.filter (fun kv => kv.1 != pod_name)).find? (fun kv => kv.1 == pod_name)
      = none := by
    rw [List.find?_eq_none]
    intro kv hkv
    have := (List.mem_filter.mp hkv).2
    simp only [bne_iff_ne, ne_eq, decide_eq_true_eq] at this ⊢
    simpa using this
  simp [_load_state, _clear_state, hfind]

theorem find?_filter_ne (store : StateStore) (pod_name other : String)
    (hne : other ≠ pod_name) :
    (store.filter (fun kv => kv.1 != pod_name)).find? (fun kv => kv.1 == other)
      = store.find? (fun kv => kv.1 == other) := by
  induction store with
  | nil => rfl
  | cons kv store ih =>
      by_cases hk : kv.1 = pod_name
      · have h1 : (kv.1 != pod_name) = false := by simp [hk]
        have h2 : (kv.1 == other) = false := by simp [hk, Ne.symm hne]
        simp only [List.filter_cons, h1, Bool.false_eq_true, if_false, List.find?_cons, h2]
        exact ih
      · have h1 : (kv.1 != pod_name) = true := by simp [hk]
        simp only [List.filter_cons, h1, if_true, List.find?_cons]
        by_cases h2 : kv.1 = other
        · have h2t : (kv.1 == other) = true := by simp [h2]
          simp only [h2t]
        · have h2f : (kv.1 == other) = false := by simp [h2]
          simp only [h2f]
          exact ih

theorem load_save_other (store : StateStore) (pod_name other : String) (state : PodState)
    (hne : other ≠ pod_name) :
    _load_state (_save_state store pod_name state) other = _load_state store other := by
  have hbeq : (pod_name == other) = false := by
    simp [Ne.symm hne]
  simp only [_load_state, _save_state, List.find?_cons, hbeq, Bool.false_eq_true, if_false]
  rw [find?_filter_ne store pod_name other hne]

theorem clear_of_load_none (store : StateStore) (pod_name : String)
    (h : _load_state store pod_name = none) : _clear_state store pod_name = store := by
  have hfind : store.find? (fun kv => kv.1 == pod_name) = none := by
    simp only [_load_state, Option.map_eq_none'] at h
    exact h
  rw [List.find?_eq_none] at hfind
  unfold _clear_state
  apply List.filter_eq_self.mpr
  intro kv hkv
  have := hfind kv hkv
  simp only [Bool.not_eq_true] at this
  simp only [bne_iff_ne, ne_eq]
  exact beq_eq_false_iff_ne.mp this

/-- C8: saving a tracked record under a name and then loading that name
returns the identical stored document (the record with the name stamped into
its `"name"` key; when the record already carries that name, the record
itself); clearing a name and then loading it returns absence; clearing a name
for which no record exists is a no-op (a total function, no error), and
clearing is idempotent. -/
theorem state_roundtrip (store : StateStore) (pod_name : String) (state : PodState) :
    (_load_state (_save_state store pod_name state) pod_name
      = some (stampName pod_name state)) ∧
    (state.name = some pod_name →
      _load_state (_save_state store pod_name state) pod_name = some state) ∧
    (_load_state (_clear_state store pod_name) pod_name = none) ∧
    (_load_state store pod_name = none → _clear_state store pod_name = store) ∧
    (_clear_state (_clear_state store pod_name) pod_name = _clear_state store pod_name) := by
  refine ⟨load_save_self store pod_name state, ?_, load_clear store pod_name,
    clear_of_load_none store pod_name, ?_⟩
  · intro hname
    have hstamp : stampName pod_name state = state := by
      obtain ⟨pid, mdl, ep, gt, cph, nvi, ca, nm⟩ := state
      simp only [stampName]
      simp only at hname
      rw [hname]
    rw [load_save_self, hstamp]
  · exact clear_of_load_none _ pod_name (load_clear store pod_name)

/-- A concrete tracked record, as saved after a successful `up` run. -/
def demoState : PodState :=
  ⟨"pod-123", "qwen2.5:7b", "https://pod-123-11434.proxy.runpod.net",
    "NVIDIA RTX A5000", 0, none, "2026-01-01T00:00:00+00:00", some "default"⟩

/-- Witness for C8: saving `demoState` (which already carries its name) into
an empty store and loading it returns the identical document, and clearing the
absent name in the empty store is a no-op. -/
theorem state_roundtrip_witness :
    _load_state (_save_state [] "default" demoState) "default" = some demoState ∧
    _clear_state ([] : StateStore) "default" = [] := by
  exact ⟨(state_roundtrip [] "default" demoState).2.1 rfl,
    (state_roundtrip [] "default" demoState).2.2.2.1 rfl⟩

/-- The observable outcome of the `status` path for one tracked record. -/
inductive StatusOutcome
  | printed (pod : Pod)
  | cleanedStale (pod_name : String)
deriving DecidableEq

/-- Embeds `cli.py` `_print_pod_table(runpod, state)`: look the pod up on the
provider; on any lookup failure (`except Exception`) report the record as
stale ("not found on RunPod. Cleaning up."), delete the local record and
return; otherwise print the table for the live pod. -/
def _print_pod_table (get_pod : String → Except String Pod) (store : StateStore)
    (state : PodState) : StateStore × StatusOutcome :=
  let pod_name := state.name.getD "?"
  match get_pod state.pod_id with
  | Except.error _ => (_clear_state store pod_name, StatusOutcome.cleanedStale pod_name)
  | Except.ok pod => (store, StatusOutcome.printed pod)

/-- The observable outcome of the `down` command. -/
inductive DownOutcome
  | noTrackedPod
  | terminated (pod_name pod_id : String)
  | uncaughtError (msg : String)
deriving DecidableEq

/-- Embeds `cli.py` `down(name)`: load the record, call `terminate_pod`, then clear
the record and report.  There is no `try`/`except` around the terminate call:
a provider failure propagates uncaught (`uncaughtError`) and `_clear_state`
is never reached. -/
def down (terminate_pod : String → Except String Unit) (store : StateStore)
    (pod_name : String) : StateStore × DownOutcome :=
  match _load_state store pod_name with
  | none => (store, DownOutcome.noTrackedPod)
  | some state =>
      match terminate_pod state.pod_id with
      | Except.error e => (store, DownOutcome.uncaughtError e)
      | Except.ok _ =>
          (_clear_state store pod_name, DownOutcome.terminated pod_name state.pod_id)

/-- Counterexample to C9 as stated: a tracked record whose instance identifier
the provider no longer recognizes (its terminate call fails).  The teardown
path `down` does **not** delete the stale local record and does not report
cleanly: the provider's failure propagates and the record is still loadable
afterwards. -/
theorem down_stale_record_counterexample :
    (down (fun _ => Except.error "pod not found") (_save_state [] "default" demoState)
      "default").1 = _save_state [] "default" demoState ∧
    (down (fun _ => Except.error "pod not found") (_save_state [] "default" demoState)
      "default").2 = DownOutcome.uncaughtError "pod not found" ∧
    _load_state (down (fun _ => Except.error "pod not found")
      (_save_state [] "default" demoState) "default").1 "default" = some demoState := by
  refine ⟨by decide, by decide, by decide⟩

/-- C9 (amended): when the provider no longer recognizes a tracked record's
instance identifier, the status path (`_print_pod_table`) deletes the stale
local record and reports cleanly instead of propagating the lookup failure;
the teardown path (`down`), however, propagates the provider's failure
uncaught and leaves the local record in place. -/
theorem stale_record_paths (get_pod : String → Except String Pod)
    (terminate_pod : String → Except String Unit) (store : StateStore)
    (state : PodState) (pod_name : String) (err : String) :
    (get_pod state.pod_id = Except.error err →
      _print_pod_table get_pod store state
        = (_clear_state store (state.name.getD "?"),
           StatusOutcome.cleanedStale (state.name.getD "?")) ∧
      _load_state (_print_pod_table get_pod store state).1 (state.name.getD "?") = none) ∧
    (_load_state store pod_name = some state →
      terminate_pod state.pod_id = Except.error err →
      down terminate_pod store pod_name = (store, DownOutcome.uncaughtError err)) := by
  constructor
  · intro herr
    have h1 : _print_pod_table get_pod store state
        = (_clear_state store (state.name.getD "?"),
           StatusOutcome.cleanedStale (state.name.getD "?")) := by
      simp [_print_pod_table, herr]
    refine ⟨h1, ?_⟩
    rw [h1]
    exact load_clear store _
  · intro hload herr
    simp [down, hload, herr]

/-- Witness for the amended C9: on a store holding one record whose pod the
provider no longer knows, the status path cleans the record up and the down
path returns the store unchanged with the propagated error. -/
theorem stale_record_paths_witness :
    _print_pod_table (fun _ => Except.error "not found")
      (_save_state [] "default" demoState) demoState
      = (_clear_state (_save_state [] "default" demoState) "default",
         StatusOutcome.cleanedStale "default") ∧
    down (fun _ => Except.error "not found") (_save_state [] "default" demoState) "default"
      = (_save_state [] "default" demoState, DownOutcome.uncaughtError "not found") := by
  have h := stale_record_paths (fun _ => Except.error "not found")
    (fun _ => Except.error "not found") (_save_state [] "default" demoState) demoState
    "default" "not found"
  exact ⟨(h.1 rfl).1, h.2 (by decide) rfl⟩

/-- Decidable Boolean substring test, modelling Python's `sub in s`. -/
def containsSub (s sub : String) : Bool := decide (sub.data <:+: s.data)

/-- Embeds `pod.py` `find_ollama_pods()`: all pods whose port-spec string contains
`str(OLLAMA_PORT)` (`str(OLLAMA_PORT) in (p.get("ports") or "")`). -/
def find_ollama_pods (pods : List Pod) : List Pod :=
  pods.filter (fun p => containsSub (p.ports.getD "") (toString OLLAMA_PORT))

/-- The `running` list of `_sync_from_runpod`: the Ollama pods whose desired
status is `"RUNNING"`. -/
def runningOllamaPods (provider_pods : List Pod) : List Pod :=
  (find_ollama_pods provider_pods).filter (fun p => p.desiredStatus == some "RUNNING")

/-- Models `pod_name = pod.get("name") or pod_id` in `_sync_from_runpod`. -/
def podDisplayName (p : Pod) : String :=
  match p.name with
  | none => p.id
  | some n => if n == "" then p.id else n

/-- The state document synthesized for one running pod in `_sync_from_runpod`
(before `_save_state` stamps the name into it). -/
def syncState (p : Pod) (endpoint : String) : PodState :=
  { pod_id := p.id
    model := "unknown"
    endpoint := endpoint
    gpu_type := match p.machine with
      | none => "unknown"
      | some m => m.gpuDisplayName.getD "unknown"
    cost_per_hr := p.costPerHr.getD 0
    network_volume_id := p.networkVolumeId
    created_at := p.lastStatusChange.getD "unknown"
    name := none }

/-- The `for pod in running:` loop of `_sync_from_runpod`: resolve each
endpoint (a `get_endpoint` exception propagating, with the earlier saves
kept), save the stamped record under the pod's display name, and collect the
synced (stamped, as mutated by `_save_state`) records in order. -/
def syncLoop : StateStore → List PodState → List Pod →
    Except Unit (StateStore × List PodState)
  | store, acc, [] => Except.ok (store, acc)
  | store, acc, p :: ps =>
      match get_endpoint p with
      | Except.error e => Except.error e
      | Except.ok endpoint =>
          let stamped := stampName (podDisplayName p) (syncState p endpoint)
          syncLoop (_save_state store (podDisplayName p) (syncState p endpoint))
            (acc ++ [stamped]) ps

/-- Embeds `cli.py` `_sync_from_runpod()`: query the provider for all running Ollama
pods and save them locally, returning the synced states; with no running
match, nothing is saved and nothing is returned. -/
def _sync_from_runpod (provider_pods : List Pod) (store : StateStore) :
    Except Unit (StateStore × List PodState) :=
  let running := runningOllamaPods provider_pods
  if running.isEmpty then Except.ok (store, [])
  else syncLoop store [] running

theorem syncLoop_spec (ep : Pod → String) :
    ∀ (ps : List Pod) (store : StateStore) (acc : List PodState),
      (∀ p ∈ ps, get_endpoint p = Except.ok (ep p)) →
      ∃ final, syncLoop store acc ps
          = Except.ok (final, acc ++ ps.map (fun p =>
              stampName (podDisplayName p) (syncState p (ep p)))) ∧
        (∀ q, q ∉ ps.map podDisplayName → _load_state final q = _load_state store q) ∧
        ((ps.map podDisplayName).Nodup →
          ∀ p ∈ ps, _load_state final (podDisplayName p)
            = some (stampName (podDisplayName p) (syncState p (ep p)))) := by
  intro ps
  induction ps with
  | nil =>
      intro store acc hep
      exact ⟨store, by simp [syncLoop], fun q hq => rfl, fun hnd p hp => absurd hp (by simp)⟩
  | cons p ps ih =>
      intro store acc hep
      have hp : get_endpoint p = Except.ok (ep p) := hep p (by simp)
      obtain ⟨final, heq, hother, hnodup⟩ :=
        ih (_save_state store (podDisplayName p) (syncState p (ep p)))
          (acc ++ [stampName (podDisplayName p) (syncState p (ep p))])
          (fun q hq => hep q (List.mem_cons_of_mem _ hq))
      refine ⟨final, ?_, ?_, ?_⟩
      · simp only [syncLoop, hp]
        rw [heq]
        simp
      · intro q hq
        simp only [List.map_cons, List.mem_cons, not_or] at hq
        rw [hother q hq.2]
        exact load_save_other store (podDisplayName p) q (syncState p (ep p)) hq.1
      · intro hnd x hx
        simp only [List.map_cons, List.nodup_cons] at hnd
        rcases List.mem_cons.mp hx with rfl | hx
        · rw [hother (podDisplayName x) hnd.1]
          exact load_save_self store (podDisplayName x) (syncState x (ep x))
        · exact hnodup hnd.2 x hx

/-- C10: with no local record (the caller's guard), reconciliation considers
exactly the provider instances whose port string exposes 11434 and whose
desired status is `RUNNING`; it synthesizes and persists one named record per
running match, named by the provider's pod name or, when that is unset
(missing or empty), the pod id, each loadable afterwards (when the resolved
names do not collide); and with no running match it creates no record. -/
theorem sync_from_runpod_reconciliation (provider_pods : List Pod) (store : StateStore)
    (ep : Pod → String) :
    (runningOllamaPods provider_pods
      = provider_pods.filter (fun p =>
          containsSub (p.ports.getD "") (toString OLLAMA_PORT) &&
          p.desiredStatus == some "RUNNING")) ∧
    ((∀ p ∈ runningOllamaPods provider_pods, get_endpoint p = Except.ok (ep p)) →
      ∃ final, _sync_from_runpod provider_pods store
          = Except.ok (final, (runningOllamaPods provider_pods).map (fun p =>
              stampName (podDisplayName p) (syncState p (ep p)))) ∧
        (((runningOllamaPods provider_pods).map podDisplayName).Nodup →
          ∀ p ∈ runningOllamaPods provider_pods,
            _load_state final (podDisplayName p)
              = some (stampName (podDisplayName p) (syncState p (ep p))))) ∧
    (runningOllamaPods provider_pods = [] →
      _sync_from_runpod provider_pods store = Except.ok (store, [])) := by
  refine ⟨?_, ?_, ?_⟩
  · rw [runningOllamaPods, find_ollama_pods, List.filter_filter]
    congr 1
    funext p
    rw [Bool.and_comm]
  · intro hep
    rcases hrun : runningOllamaPods provider_pods with _ | ⟨p0, prest⟩
    · exact ⟨store, by simp [_sync_from_runpod, hrun], fun _ p hp => absurd hp (by simp)⟩
    · obtain ⟨final, heq, -, hnodup⟩ :=
        syncLoop_spec ep (p0 :: prest) store [] (by rw [← hrun]; exact hep)
      refine ⟨final, ?_, ?_⟩
      · rw [_sync_from_runpod]
        simp only [hrun, List.isEmpty_cons, Bool.false_eq_true, if_false]
        rw [heq]
        simp
      · exact hnodup
  · intro hrun
    simp [_sync_from_runpod, hrun]

deriving instance DecidableEq for Except

/-- A running provider pod exposing the Ollama port, with a provider name. -/
def demoRunPodA : Pod :=
  ⟨"pod-a", some ⟨[]⟩, some "RUNNING", some "11434/tcp", some "ollama-default",
    some ⟨some "RTX A5000"⟩, none, some 0, some "2026-01-01"⟩

/-- An exited pod exposing the Ollama port (filtered out by the status check). -/
def demoStoppedPod : Pod :=
  ⟨"pod-c", none, some "EXITED", some "11434/tcp", none, none, none, none, none⟩

/-- A running pod that does not expose the Ollama port (filtered out). -/
def demoOtherPod : Pod :=
  ⟨"pod-d", none, some "RUNNING", some "22/tcp", none, none, none, none, none⟩

/-- The endpoint each demo pod's `get_endpoint` resolves to (the proxy URL,
since the demo pods expose no runtime port mappings). -/
def demoEp (p : Pod) : String := "https://" ++ p.id ++ "-11434.proxy.runpod.net"

/-- Witness for C10: of three provider pods, only the running Ollama-port pod
is synced; it is persisted under its provider name and loadable afterwards. -/
theorem sync_from_runpod_reconciliation_witness :
    ∃ final, _sync_from_runpod [demoRunPodA, demoStoppedPod, demoOtherPod] []
        = Except.ok (final, [stampName "ollama-default"
            (syncState demoRunPodA "https://pod-a-11434.proxy.runpod.net")]) ∧
      _load_state final "ollama-default"
        = some (stampName "ollama-default"
            (syncState demoRunPodA "https://pod-a-11434.proxy.runpod.net")) := by
  have hrun : runningOllamaPods [demoRunPodA, demoStoppedPod, demoOtherPod]
      = [demoRunPodA] := by decide
  have hep : ∀ p ∈ runningOllamaPods [demoRunPodA, demoStoppedPod, demoOtherPod],
      get_endpoint p = Except.ok (demoEp p) := by
    intro p hp
    rw [hrun, List.mem_singleton] at hp
    subst hp
    decide
  obtain ⟨final, heq, hload⟩ := (sync_from_runpod_reconciliation
    [demoRunPodA, demoStoppedPod, demoOtherPod] [] demoEp).2.1 hep
  rw [hrun] at heq hload
  refine ⟨final, ?_, ?_⟩
  · rw [heq]
    rfl
  · exact hload (by decide) demoRunPodA (by simp)

end OllamaPod
